import Mathlib

/-!
Verification development for the robot-arm-sim repository.

We shallowly embed the three claim-relevant components:
* `Hub`  — the WebSocket relay hub embedded in `vite.config.ts`
           (client roster, broadcast, scheduled sequence delivery, stop).
* `WSC`  — the Transport Client (`src/core/WebSocketClient.ts`) reconnection
           state machine.
* `JAQ`  — the Frame Animation Queue (`src/core/JointAnimationQueue.ts`).

Timers are modelled explicitly: a scheduled `setTimeout` becomes a pending
`Timer` value recorded in the state, and its later firing is a separate
transition; `clearTimeout` removes the pending value.  Message sends
(`ws.send`) append to an ever-growing `sent` log.
-/

namespace Hub

/-- One keyframe of an action sequence, as consumed by the hub code
(`frame.time`, and the payload forwarded verbatim).  Mirrors the
`FrameData` / `JSONKeyFrame` interface: `id`, `time` (milliseconds),
`joints` (radians), optional cartesian pose, optional io flags. -/
structure IoFlags where
  digital_output_0 : Option Bool
deriving DecidableEq, Repr

structure Cartesian where
  position : List ℚ
  orientation : List ℚ
deriving DecidableEq, Repr

structure FrameData where
  id : Nat
  time : Int
  joints : List ℚ
  cartesian : Option Cartesian
  io : Option IoFlags
deriving DecidableEq, Repr

/-- Messages the hub sends to a client (`ws.send(JSON.stringify({type, data}))`).
Payloads that the claims never inspect are kept as opaque strings. -/
inductive Msg where
  | robotStateUpdate (sourceClientId : Nat) (data : String)
  | sequenceStart (meta : String)
  | sequenceFrame (frame : FrameData)
  | sequenceComplete
  | sequenceStopped
  | error (code : String) (message : String)
deriving DecidableEq, Repr

/-- One entry of the hub's `clients` Map: the `clientInfo` record.
`readyState` mirrors `ws.readyState`; 1 is WebSocket OPEN. -/
structure ClientConn where
  id : Nat
  type : String
  name : String
  readyState : Nat
  lastHeartbeat : Int
deriving DecidableEq, Repr

/-- What a scheduled `setTimeout` callback in `pushSequenceFrames` will do. -/
inductive TimerAction where
  | sendFrame (frame : FrameData)
  | sendComplete
deriving DecidableEq, Repr

/-- A pending timer: `delay` is the `setTimeout` offset in ms from the moment
of scheduling. -/
structure Timer where
  delay : Int
  action : TimerAction
deriving DecidableEq, Repr

/-- The hub's process-wide mutable state: the `clients` Map, the
`sequenceTimers` Map, plus the log of all `ws.send` calls performed so far
(pairs of destination client id and message). -/
structure HubState where
  clients : List ClientConn
  sequenceTimers : List (Nat × List Timer)
  sent : List (Nat × Msg)
deriving DecidableEq, Repr

/-- `clients.get(clientId)`. -/
def HubState.findClient (st : HubState) (clientId : Nat) : Option ClientConn :=
  st.clients.find? (fun c => c.id = clientId)

/-- The list of pending timers recorded for a client (empty when the
`sequenceTimers` Map has no entry). -/
def timersFor (st : HubState) (clientId : Nat) : List Timer :=
  ((st.sequenceTimers.find? (fun p => p.1 = clientId)).map Prod.snd).getD []

/-- `clearClientSequenceTimers`: `clearTimeout` every pending timer of the
client and delete its `sequenceTimers` entry. -/
def clearClientSequenceTimers (st : HubState) (clientId : Nat) : HubState :=
  { st with sequenceTimers := st.sequenceTimers.filter (fun p => p.1 ≠ clientId) }

/-- The `isConnected()` closure inside `pushSequenceFrames`:
`clients.has(clientId) && client.ws.readyState === 1` (ids are never reused,
so the captured record is the roster's record). -/
def isConnected (st : HubState) (clientId : Nat) : Bool :=
  match st.findClient clientId with
  | some c => c.readyState = 1
  | none => false

/-- Firing one scheduled timer of `pushSequenceFrames`: the callback sends its
message only if the client is still connected, and silently returns
otherwise. -/
def fireTimer (st : HubState) (clientId : Nat) (t : Timer) : HubState :=
  if isConnected st clientId then
    match t.action with
    | .sendFrame f => { st with sent := st.sent ++ [(clientId, Msg.sequenceFrame f)] }
    | .sendComplete => { st with sent := st.sent ++ [(clientId, Msg.sequenceComplete)] }
  else st

/-- `pushSequenceFrames(clientId, frames)`: return if the client is unknown;
otherwise clear the client's previous timers, schedule one timer per frame at
delay `Math.max(0, frame.time)`, and one further timer at the last frame's
delay that sends `sequence_complete`.  (The JS indexes
`frames[frames.length - 1]`; the caller guarantees `frames` non-empty, and on
an empty list nothing is scheduled.) -/
def pushSequenceFrames (st : HubState) (clientId : Nat) (frames : List FrameData) :
    HubState :=
  match st.findClient clientId with
  | none => st
  | some _ =>
    match frames.getLast? with
    | none => st
    | some lastFrame =>
      let st1 := clearClientSequenceTimers st clientId
      let frameTimers := frames.map (fun f => Timer.mk (max 0 f.time) (TimerAction.sendFrame f))
      let allTimers := frameTimers ++ [Timer.mk (max 0 lastFrame.time) TimerAction.sendComplete]
      { st1 with sequenceTimers := (clientId, allTimers) :: st1.sequenceTimers }

/-- `sendError(ws, code, message)`: sends only when the socket is OPEN. -/
def sendError (st : HubState) (c : ClientConn) (code message : String) : HubState :=
  if c.readyState = 1 then
    { st with sent := st.sent ++ [(c.id, Msg.error code message)] }
  else st

/-- `broadcast(message, excludeClientId = null)`: send to every roster client
whose socket is OPEN and whose id differs from the exclusion id. -/
def broadcast (st : HubState) (m : Msg) (excludeClientId : Option Nat) : HubState :=
  { st with
      sent := st.sent ++ st.clients.filterMap (fun c =>
        if some c.id ≠ excludeClientId ∧ c.readyState = 1 then some (c.id, m) else none) }

/-- `handleRobotState(clientId, data)`: broadcast a `robot_state_update`
tagged with the source id.  Note the call site passes no `excludeClientId`,
so the JS default `null` applies. -/
def handleRobotState (st : HubState) (clientId : Nat) (data : String) : HubState :=
  broadcast st (Msg.robotStateUpdate clientId data) none

/-- `handleStopSequenceRequest(clientId, _data)`: return if the client is
unknown; otherwise clear all of its scheduled timers and, when its socket is
OPEN, send `sequence_stopped`. -/
def handleStopSequenceRequest (st : HubState) (clientId : Nat) : HubState :=
  match st.findClient clientId with
  | none => st
  | some c =>
    let st1 := clearClientSequenceTimers st clientId
    if c.readyState = 1 then
      { st1 with sent := st1.sent ++ [(clientId, Msg.sequenceStopped)] }
    else st1

/-- The parsed content of `./actions/websocket_demo.json`:
`sequenceData.meta` and `sequenceData.frames || []`. -/
structure SequenceFile where
  meta : String
  frames : List FrameData
deriving DecidableEq, Repr

/-- `handleTestSequenceRequest(clientId, data)`.  `readFileSync` + `JSON.parse`
either yields a parsed file or throws; the `Except` argument carries that
outcome (`.error` = the thrown message, caught and answered with
`SEQUENCE_ERROR`).  An empty frame list is answered with `EMPTY_SEQUENCE`.
Otherwise `sequence_start` is sent and the frames are scheduled. -/
def handleTestSequenceRequest (st : HubState) (clientId : Nat)
    (fileContent : Except String SequenceFile) : HubState :=
  match st.findClient clientId with
  | none => st
  | some c =>
    match fileContent with
    | .error e => sendError st c "SEQUENCE_ERROR" ("处理测试序列失败: " ++ e)
    | .ok seq =>
      if seq.frames.isEmpty then
        sendError st c "EMPTY_SEQUENCE" "测试序列为空"
      else
        let st1 := { st with sent := st.sent ++ [(clientId, Msg.sequenceStart seq.meta)] }
        pushSequenceFrames st1 clientId seq.frames

/-- Fire, in scheduling order, every pending timer of `clientId` whose delay
has been reached at time `now` (ms since scheduling), leaving the later ones
pending.  This is the event-loop behaviour restricted to one client's timers
(timers of distinct clients never touch each other's entries). -/
def fireDueFor (st : HubState) (clientId : Nat) (now : Int) : HubState :=
  let ts := timersFor st clientId
  let due := ts.filter (fun t => t.delay ≤ now)
  let rest := ts.filter (fun t => ¬ (t.delay ≤ now))
  let st1 := due.foldl (fun a t => fireTimer a clientId t) st
  { st1 with
      sequenceTimers :=
        (clientId, rest) :: st1.sequenceTimers.filter (fun p => p.1 ≠ clientId) }

end Hub

namespace WSC

/-!
Shallow embedding of the Transport Client's connection lifecycle
(`src/core/WebSocketClient.ts`), as a state machine over the class fields.
A scheduled reconnect `setTimeout` is counted in `pendingTimers`; the
events emitted through `this.emit(...)` are logged in `emitted`.
Heartbeats and message dispatch are orthogonal to the reconnection claims
and are not part of this state machine.
-/

/-- Events emitted via `this.emit` that the reconnection claims observe. -/
inductive Evt where
  | connected
  | disconnected
  | reconnectFailed (attempts : Nat)
deriving DecidableEq, Repr

/-- The class fields driving reconnection, plus bookkeeping for the socket
object (`this.ws`) and the scheduled reconnect timers.
`hasSocket`/`socketClosed` track whether a WebSocket object with attached
handlers exists and whether its single `close` event has already fired.
`autoAttemptsStarted` counts the passages of `attemptReconnect` beyond its
guard (each one schedules exactly one reconnect timer). -/
structure ClientState where
  hasSocket : Bool
  socketClosed : Bool
  isConnected : Bool
  reconnectAttempts : Nat
  isReconnecting : Bool
  isManualDisconnect : Bool
  pendingTimers : Nat
  autoAttemptsStarted : Nat
  emitted : List Evt
deriving DecidableEq, Repr

/-- `maxReconnectAttempts = 3`. -/
def maxReconnectAttempts : Nat := 3

/-- A freshly constructed client: `ws = null`, all flags down. -/
def initialClient : ClientState :=
  { hasSocket := false, socketClosed := true, isConnected := false,
    reconnectAttempts := 0, isReconnecting := false, isManualDisconnect := false,
    pendingTimers := 0, autoAttemptsStarted := 0, emitted := [] }

/-- `attemptReconnect()`: no-op while `isReconnecting` or after a manual
disconnect; otherwise raise the flag, bump the attempt counter and schedule
one reconnect timer (`setTimeout(connect, reconnectDelay)`). -/
def attemptReconnect (s : ClientState) : ClientState :=
  if s.isReconnecting ∨ s.isManualDisconnect then s
  else
    { s with isReconnecting := true,
             reconnectAttempts := s.reconnectAttempts + 1,
             pendingTimers := s.pendingTimers + 1,
             autoAttemptsStarted := s.autoAttemptsStarted + 1 }

/-- The body of `connect()` up to handler installation: discard any previous
socket (`cleanupConnection`) and create a fresh one whose events have not
fired yet.  (The promise resolution and the `register`/heartbeat start live
in the `open` handler.) -/
def connectAction (s : ClientState) : ClientState :=
  { s with hasSocket := true, socketClosed := false, isConnected := false }

/-- External happenings the client reacts to. -/
inductive Event where
  | closeEvt        -- the current socket fires `onclose` (once per socket)
  | openEvt         -- the current socket fires `onopen`
  | timerFire       -- a scheduled reconnect timer fires and calls `connect()`
  | manualConnect   -- user code calls `connect()`
  | manualDisconnect  -- user code calls `disconnect()`
  | manualReconnect   -- user code calls `reconnect()`
deriving DecidableEq, Repr

/-- One transition of the client state machine, mirroring the handlers in
`connect()`, and the public `disconnect`/`reconnect` methods.  Socket events
are guarded by the existence of a live socket (a socket fires `close` and
`open` at most once). -/
def step (s : ClientState) (e : Event) : ClientState :=
  match e with
  | .closeEvt =>
    if s.hasSocket ∧ ¬ s.socketClosed then
      -- onclose: isConnected = false; stopHeartbeat; isReconnecting = false;
      -- emit disconnected; then the reconnection decision.
      let s1 := { s with socketClosed := true, isConnected := false,
                         isReconnecting := false,
                         emitted := s.emitted ++ [Evt.disconnected] }
      if ¬ s1.isManualDisconnect ∧ s1.reconnectAttempts < maxReconnectAttempts then
        attemptReconnect s1
      else if maxReconnectAttempts ≤ s1.reconnectAttempts then
        { s1 with emitted := s1.emitted ++ [Evt.reconnectFailed s1.reconnectAttempts] }
      else s1
    else s
  | .openEvt =>
    if s.hasSocket ∧ ¬ s.socketClosed ∧ ¬ s.isConnected then
      -- onopen: isConnected = true; resetReconnectState; emit connected.
      { s with isConnected := true, reconnectAttempts := 0,
               isManualDisconnect := false, isReconnecting := false,
               emitted := s.emitted ++ [Evt.connected] }
    else s
  | .timerFire =>
    if 0 < s.pendingTimers then
      connectAction { s with pendingTimers := s.pendingTimers - 1 }
    else s
  | .manualConnect => connectAction s
  | .manualDisconnect =>
    -- disconnect(): isManualDisconnect = true; isReconnecting = false;
    -- cleanupConnection (drops the socket, isConnected = false).
    { s with isManualDisconnect := true, isReconnecting := false,
             isConnected := false, hasSocket := false }
  | .manualReconnect =>
    -- reconnect(): resetReconnectState() then connect().
    connectAction { s with reconnectAttempts := 0, isManualDisconnect := false,
                           isReconnecting := false }

/-- An event the environment produces without user intervention. -/
def Event.isAuto : Event → Bool
  | .closeEvt => true
  | .openEvt => true
  | .timerFire => true
  | _ => false

/-- The run in which the initial `connect()` and every automatic reconnection
attempt fail by an immediate unexpected close: each scheduled timer fires,
the resulting connection closes at once. -/
def failureRun : ClientState :=
  List.foldl step initialClient
    [Event.manualConnect, Event.closeEvt,
     Event.timerFire, Event.closeEvt,
     Event.timerFire, Event.closeEvt,
     Event.timerFire, Event.closeEvt]

/-- Count of terminal `reconnect_failed` emissions in a log. -/
def countReconnectFailed (l : List Evt) : Nat :=
  l.countP (fun e => match e with | Evt.reconnectFailed _ => true | _ => false)

end WSC

namespace JAQ

/-!
Shallow embedding of `src/core/JointAnimationQueue.ts` together with the
slice of `RobotArm` it drives: the joint-animation timeline started by
`animateMultipleJoints` (killed and replaced on each call, killed by
`stopAnimation`/`stopAllJointAnimations`) and the gripper timeline started by
`animateGripperOpenness`.  GSAP timelines are modelled as the data they were
started with; their asynchronous completion is the separate
`transitionComplete` transition (the `onComplete` callback).
-/

/-- `FrameData` of `JointAnimationQueue.ts`. -/
structure IoFlags where
  digital_output_0 : Option Bool
deriving DecidableEq, Repr

structure Cartesian where
  position : List ℚ
  orientation : List ℚ
deriving DecidableEq, Repr

structure FrameData where
  id : Nat
  time : Int
  joints : List ℚ
  cartesian : Option Cartesian
  io : Option IoFlags
deriving DecidableEq, Repr

/-- `type PlayStatus = 'idle' | 'playing' | 'stopped'`. -/
inductive PlayStatus where
  | idle
  | playing
  | stopped
deriving DecidableEq, Repr

/-- The joint timeline started by `robotArm.animateMultipleJoints`: the frame
being executed and the transition duration in seconds.  (The per-joint tweens
it contains are a function of `frame.joints` and the arm's joint configs:
each radian value is converted to degrees and tweened linearly over
`duration`.) -/
structure Transition where
  frame : FrameData
  duration : ℚ
deriving DecidableEq, Repr

/-- The queue state: the class fields of `JointAnimationQueue` plus the two
robot-arm timelines it can start.  `activeGripper` is the target openness of
the gripper timeline (`animateGripperOpenness`), if one is running. -/
structure QueueState where
  hasRobotArm : Bool
  frameQueue : List FrameData
  status : PlayStatus
  isProcessing : Bool
  animationLoopActive : Bool
  lastProcessedFrame : Option FrameData
  activeTransition : Option Transition
  activeGripper : Option ℚ
deriving DecidableEq, Repr

/-- `calculateFrameDuration(currentFrame, nextFrame)` (reads
`this.lastProcessedFrame`): 1.0 s for the first frame of the session;
otherwise `(next.time - current.time)/1000`, or with no buffered next frame
`(current.time - lastProcessed.time)/1000`, both floored at 0.1 s. -/
def calculateFrameDuration (lastProcessed : Option FrameData)
    (currentFrame : FrameData) (nextFrame : Option FrameData) : ℚ :=
  match lastProcessed with
  | none => 1
  | some lastF =>
    match nextFrame with
    | some n => max (1/10) (((n.time - currentFrame.time : Int) : ℚ) / 1000)
    | none => max (1/10) (((currentFrame.time - lastF.time : Int) : ℚ) / 1000)

/-- The gripper command derived in `executeFrame`:
`frame.io?.digital_output_0 !== undefined` guards
`gripperOpenness = frame.io.digital_output_0 ? 0 : 1`. -/
def gripperCommand (frame : FrameData) : Option ℚ :=
  match frame.io with
  | some io =>
    match io.digital_output_0 with
    | some b => some (if b then 0 else 1)
    | none => none
  | none => none

/-- `executeFrame(frame, nextFrame)`: without an arm, just drop the
processing flag.  Otherwise compute the duration, start the joint timeline
(`animateMultipleJoints` kills any previous one) and, when the io flag is
present, start the gripper timeline (`animateGripperOpenness` kills any
previous gripper timeline).  Nothing in the embedded body throws, so the
`catch` branch (onError + `stop()`) is unreachable here. -/
def executeFrame (s : QueueState) (frame : FrameData) (nextFrame : Option FrameData) :
    QueueState :=
  if ¬ s.hasRobotArm then { s with isProcessing := false }
  else
    let duration := calculateFrameDuration s.lastProcessedFrame frame nextFrame
    let s1 := { s with activeTransition := some ⟨frame, duration⟩ }
    match gripperCommand frame with
    | some g => { s1 with activeGripper := some g }
    | none => s1

/-- The `onComplete` callback of the joint timeline firing: clear the
processing flag and remember the frame as last processed. -/
def transitionComplete (s : QueueState) : QueueState :=
  match s.activeTransition with
  | some tr =>
    { s with isProcessing := false, lastProcessedFrame := some tr.frame,
             activeTransition := none }
  | none => s

/-- `processQueue()`: bail out while processing or without an arm; otherwise,
if the queue is non-empty, raise the processing flag, shift the head frame,
peek the new head and execute. -/
def processQueue (s : QueueState) : QueueState :=
  if s.isProcessing then s
  else if ¬ s.hasRobotArm then s
  else
    match s.frameQueue with
    | [] => s
    | currentFrame :: rest =>
      executeFrame { s with isProcessing := true, frameQueue := rest }
        currentFrame rest.head?

/-- One iteration of the `requestAnimationFrame` loop body: only when the
loop is installed and `status === 'playing' && !isProcessing`. -/
def tick (s : QueueState) : QueueState :=
  if s.animationLoopActive ∧ s.status = PlayStatus.playing ∧ ¬ s.isProcessing then
    processQueue s
  else s

/-- `startSequence(options)`: enter `playing` with an empty queue, no
last-processed frame, processing flag down, and the animation loop installed
(`startAnimationLoop` is a no-op when already installed). -/
def startSequence (s : QueueState) : QueueState :=
  { s with status := PlayStatus.playing, frameQueue := [],
           lastProcessedFrame := none, isProcessing := false,
           animationLoopActive := true }

/-- `enqueueFrame(frame)`: push to the tail. -/
def enqueueFrame (s : QueueState) (frame : FrameData) : QueueState :=
  { s with frameQueue := s.frameQueue ++ [frame] }

/-- `stop()`: no-op when `idle`; otherwise enter `stopped`, drop the
processing flag, kill the arm's joint timeline (`stopAnimation` +
`stopAllJointAnimations` — these do not touch the separate gripper
timeline), cancel the animation loop and clear the queue. -/
def stop (s : QueueState) : QueueState :=
  if s.status = PlayStatus.idle then s
  else
    let s1 := { s with status := PlayStatus.stopped, isProcessing := false }
    let s2 := if s1.hasRobotArm then { s1 with activeTransition := none } else s1
    { s2 with animationLoopActive := false, frameQueue := [] }

end JAQ

namespace Arm

/-!
The load-time validation of an action sequence
(`RobotArm.loadActionSequence` / `validateActionSequence`): the only place in
the repository that checks joint-vector length and the type of `time`.
Since the checks inspect raw JSON shapes, frames are embedded pre-typing.
-/

/-- The keys of `jointAxisMap`: the controllable joints of the simulator. -/
def jointNames : List String := ["base1", "shoulder", "elbow1", "elbow2", "wrist1"]

/-- A raw JSON scalar, as far as `typeof x !== 'number'` can distinguish it. -/
inductive JsonValue where
  | num (q : ℚ)
  | str (s : String)
  | bool (b : Bool)
  | null
deriving DecidableEq, Repr

/-- A frame as it sits in the parsed JSON before validation: `joints` is
`none` when the field is not an array, and `time` is an arbitrary scalar. -/
structure RawFrame where
  joints : Option (List JsonValue)
  time : JsonValue
deriving DecidableEq, Repr

/-- The two per-frame checks, in source order (the first rejection wins):
`!Array.isArray(frame.joints) || frame.joints.length !== this.jointNames.length`,
then `typeof frame.time !== 'number'`. -/
def checkFrame (jointCount : Nat) (i : Nat) (f : RawFrame) : Option String :=
  let jointsErr : Option String :=
    match f.joints with
    | none => some s!"Frame {i}: joints array must have {jointCount} values"
    | some js =>
      if js.length ≠ jointCount then
        some s!"Frame {i}: joints array must have {jointCount} values"
      else none
  match jointsErr with
  | some m => some m
  | none =>
    match f.time with
    | JsonValue.num _ => none
    | _ => some s!"Frame {i}: time must be a number"

/-- Scan the frames in order, reporting the first failing check. -/
def validateFrames (jointCount : Nat) (i : Nat) : List RawFrame → Option String
  | [] => none
  | f :: rest =>
    match checkFrame jointCount i f with
    | some m => some m
    | none => validateFrames jointCount (i + 1) rest

/-- `validateActionSequence(sequence)`: an empty (or missing) frame array is
rejected first; otherwise the first failing per-frame check rejects; a fully
checked sequence resolves. -/
def validateActionSequence (jointCount : Nat) (frames : List RawFrame) :
    Except String Unit :=
  if frames.length = 0 then
    Except.error "Action sequence must contain at least one frame"
  else
    match validateFrames jointCount 0 frames with
    | some m => Except.error m
    | none => Except.ok ()

end Arm

/-! ### Concrete demonstration states used by the theorems below -/

/-- A roster entry with an OPEN socket. -/
def clientOpen (i : Nat) : Hub.ClientConn :=
  { id := i, type := "simulator", name := "sim", readyState := 1, lastHeartbeat := 0 }

/-- A hub with two connected clients, ids 1 and 2. -/
def twoClientHub : Hub.HubState :=
  { clients := [clientOpen 1, clientOpen 2], sequenceTimers := [], sent := [] }

/-- A hub with a single connected client, id 1. -/
def oneClientHub : Hub.HubState :=
  { clients := [clientOpen 1], sequenceTimers := [], sent := [] }

/-- A hub keyframe with the demo joint vector. -/
def dFrame (i : Nat) (t : Int) : Hub.FrameData :=
  { id := i, time := t, joints := [0, 0, 0, 0, 0], cartesian := none, io := none }

/-- The four frames of the stop-scenario test: times 0, 100, 250, 500. -/
def demoFrames : List Hub.FrameData :=
  [dFrame 0 0, dFrame 1 100, dFrame 2 250, dFrame 3 500]

/-- Stop scenario, step 1: the sequence is scheduled for client 1. -/
def c4stA : Hub.HubState := Hub.pushSequenceFrames oneClientHub 1 demoFrames

/-- Stop scenario, step 2: the timers due by t = 120 ms have fired. -/
def c4stB : Hub.HubState := Hub.fireDueFor c4stA 1 120

/-- Stop scenario, step 3: the stop request arrives at t = 120 ms. -/
def c4stC : Hub.HubState := Hub.handleStopSequenceRequest c4stB 1

/-- A queue keyframe with the demo joint vector. -/
def jFrame (i : Nat) (t : Int) : JAQ.FrameData :=
  { id := i, time := t, joints := [0, 0, 0, 0, 0], cartesian := none, io := none }

/-- A fresh idle queue bound to a robot arm. -/
def idleQueue : JAQ.QueueState :=
  { hasRobotArm := true, frameQueue := [], status := JAQ.PlayStatus.idle,
    isProcessing := false, animationLoopActive := false, lastProcessedFrame := none,
    activeTransition := none, activeGripper := none }

/-- Burst scenario: `startSequence` followed by five rapid `enqueueFrame`s,
before any loop iteration runs. -/
def burstQueue : JAQ.QueueState :=
  List.foldl JAQ.enqueueFrame (JAQ.startSequence idleQueue)
    [jFrame 1 100, jFrame 2 200, jFrame 3 300, jFrame 4 400, jFrame 5 500]

/-- Iterated animation-loop steps. -/
def tickN : Nat → JAQ.QueueState → JAQ.QueueState
  | 0, s => s
  | k + 1, s => tickN k (JAQ.tick s)

/-- The burst scenario after its first loop iteration. -/
def burstAfter : JAQ.QueueState := JAQ.tick burstQueue

/-- A frame whose joint vector has a single entry — malformed for the
5-joint simulator. -/
def c8BadFrame : Hub.FrameData :=
  { id := 1, time := 100, joints := [0], cartesian := none, io := none }

/-- A raw frame that passes every validation check for 5 joints. -/
def c8GoodRaw : Arm.RawFrame :=
  { joints := some [Arm.JsonValue.num 0, Arm.JsonValue.num 0, Arm.JsonValue.num 0,
      Arm.JsonValue.num 0, Arm.JsonValue.num 0],
    time := Arm.JsonValue.num 100 }

/-- The client state just before the re-entrant close of the C6 scenario:
connect, open, unexpected close (which schedules reconnect attempt 1), then a
manual `connect()` during the reconnect delay. -/
def c6Pre : WSC.ClientState :=
  List.foldl WSC.step WSC.initialClient
    [WSC.Event.manualConnect, WSC.Event.openEvt, WSC.Event.closeEvt, WSC.Event.manualConnect]

/-- Filtering out the entries of one key leaves `find?` for a different key
unchanged. -/
lemma find?_filter_ne (l : List (Nat × List Hub.Timer)) (cid keep : Nat) (h : cid ≠ keep) :
    (l.filter (fun p => p.1 ≠ keep)).find? (fun p => p.1 = cid)
      = l.find? (fun p => p.1 = cid) := by
  induction l with
  | nil => rfl
  | cons a t ih =>
    rw [List.filter_cons]
    by_cases ha : a.1 = keep
    · have hpa : (decide (a.1 = cid)) = false := by
        simp only [decide_eq_false_iff_not]
        exact fun hcc => h (hcc ▸ ha)
      have hq : (decide (a.1 ≠ keep)) = false := by simp [ha]
      rw [hq]
      simp only [Bool.false_eq_true, if_false, List.find?_cons, hpa, ih]
    · have hq : (decide (a.1 ≠ keep)) = true := by simp [ha]
      rw [hq]
      simp only [if_true, List.find?_cons]
      cases hpa : decide (a.1 = cid) <;> simp only [hpa, ih]

/-- After `clearClientSequenceTimers` a client has no pending timers. -/
lemma timersFor_clear_self (st : Hub.HubState) (cid : Nat) :
    Hub.timersFor (Hub.clearClientSequenceTimers st cid) cid = [] := by
  have h : (st.sequenceTimers.filter (fun p => p.1 ≠ cid)).find? (fun p => p.1 = cid)
      = none := by
    rw [List.find?_eq_none]
    intro x hx
    have hmem := List.of_mem_filter hx
    simp only [ne_eq, decide_not, Bool.not_eq_true', decide_eq_false_iff_not] at hmem
    simpa using hmem
  simp only [Hub.timersFor, Hub.clearClientSequenceTimers]
  rw [h]
  rfl

/-- Firing due timers of a client without pending timers sends nothing. -/
lemma fireDueFor_sent_of_no_timers (st : Hub.HubState) (cid : Nat) (now : Int)
    (h : Hub.timersFor st cid = []) :
    (Hub.fireDueFor st cid now).sent = st.sent := by
  simp [Hub.fireDueFor, h]

/-- A frame passing both checks of `checkFrame` has a joint array of the
declared length and a numeric time. -/
lemma checkFrame_eq_none (n i : Nat) (f : Arm.RawFrame) (h : Arm.checkFrame n i f = none) :
    (∃ js, f.joints = some js ∧ js.length = n) ∧ (∃ q, f.time = Arm.JsonValue.num q) := by
  rcases f with ⟨joints, time⟩
  rcases joints with _ | js
  · simp [Arm.checkFrame] at h
  · by_cases hl : js.length = n
    · rcases time with q | s | b | _
      · exact ⟨⟨js, rfl, hl⟩, ⟨q, rfl⟩⟩
      · simp [Arm.checkFrame, hl] at h
      · simp [Arm.checkFrame, hl] at h
      · simp [Arm.checkFrame, hl] at h
    · simp [Arm.checkFrame, hl] at h

/-- If the scan of `validateFrames` accepts, every frame passes both
checks. -/
lemma validateFrames_none_good (n : Nat) :
    ∀ (i : Nat) (l : List Arm.RawFrame), Arm.validateFrames n i l = none →
      ∀ f ∈ l, (∃ js, f.joints = some js ∧ js.length = n)
        ∧ (∃ q, f.time = Arm.JsonValue.num q) := by
  intro i l
  induction l generalizing i with
  | nil => intro _ f hf; cases hf
  | cons a t ih =>
    intro h f hf
    cases hch : Arm.checkFrame n i a with
    | some m => simp [Arm.validateFrames, hch] at h
    | none =>
      have ht : Arm.validateFrames n (i + 1) t = none := by
        simpa [Arm.validateFrames, hch] using h
      rcases List.mem_cons.mp hf with rfl | hf2
      · exact checkFrame_eq_none n i f hch
      · exact ih (i + 1) ht f hf2

/-- The timers just written for a client read back unchanged. -/
lemma timersFor_set_head (st : Hub.HubState) (cid : Nat) (ts : List Hub.Timer) :
    Hub.timersFor { st with sequenceTimers := (cid, ts) :: st.sequenceTimers } cid = ts := by
  simp [Hub.timersFor, List.find?_cons]

/-- Writing one client's timers leaves another client's timers unchanged. -/
lemma timersFor_set_head_ne (st : Hub.HubState) (cid cid2 : Nat) (ts : List Hub.Timer)
    (h : cid2 ≠ cid) :
    Hub.timersFor { st with sequenceTimers := (cid, ts) :: st.sequenceTimers } cid2
      = Hub.timersFor st cid2 := by
  have hpa : (decide (cid = cid2)) = false := by
    simp only [decide_eq_false_iff_not]
    exact fun hh => h hh.symm
  simp only [Hub.timersFor, List.find?_cons, hpa]

/-- Appending to the send log does not change pending timers. -/
lemma timersFor_set_sent (st : Hub.HubState) (cid : Nat) (l : List (Nat × Hub.Msg)) :
    Hub.timersFor { st with sent := l } cid = Hub.timersFor st cid := rfl

/-- A loop iteration is a no-op while a transition is being processed. -/
lemma tick_of_processing (s : JAQ.QueueState) (hp : s.isProcessing = true) :
    JAQ.tick s = s := by
  simp [JAQ.tick, hp]

/-- Iterating the loop preserves any fixed point of `tick`. -/
lemma tickN_fixed (k : Nat) (s : JAQ.QueueState) (h : JAQ.tick s = s) :
    tickN k s = s := by
  induction k with
  | zero => rfl
  | succ n ih =>
    show tickN n (JAQ.tick s) = s
    rw [h]
    exact ih

/-! ### Claim theorems -/

/-- C2: scheduling a non-empty, time-sorted sequence for a known client
replaces its pending timers with exactly one timer per frame at offset
`frame.time` plus one `sequence_complete` timer at the last frame's offset;
nothing is sent at scheduling time, other clients' timers are untouched, and
a firing timer sends its `sequence_frame` (or `sequence_complete`) only while
the client is still connected, silently doing nothing after a disconnect. -/
theorem c2_sequence_scheduling (st : Hub.HubState) (clientId : Nat)
    (frames : List Hub.FrameData) (lastF : Hub.FrameData) (c : Hub.ClientConn)
    (hc : st.findClient clientId = some c)
    (hLast : frames.getLast? = some lastF)
    (hNonneg : ∀ f ∈ frames, 0 ≤ f.time)
    (hSorted : frames.Pairwise (fun a b => a.time ≤ b.time)) :
    Hub.timersFor (Hub.pushSequenceFrames st clientId frames) clientId
      = frames.map (fun f => Hub.Timer.mk f.time (Hub.TimerAction.sendFrame f))
        ++ [Hub.Timer.mk lastF.time Hub.TimerAction.sendComplete]
    ∧ (Hub.pushSequenceFrames st clientId frames).sent = st.sent
    ∧ (∀ cid2, cid2 ≠ clientId →
        Hub.timersFor (Hub.pushSequenceFrames st clientId frames) cid2
          = Hub.timersFor st cid2)
    ∧ (∀ (st2 : Hub.HubState) (t : Hub.Timer), Hub.isConnected st2 clientId = false →
        Hub.fireTimer st2 clientId t = st2)
    ∧ (∀ (st2 : Hub.HubState) (d : Int) (f : Hub.FrameData),
        Hub.isConnected st2 clientId = true →
        Hub.fireTimer st2 clientId (Hub.Timer.mk d (Hub.TimerAction.sendFrame f))
          = { st2 with sent := st2.sent ++ [(clientId, Hub.Msg.sequenceFrame f)] })
    ∧ (∀ (st2 : Hub.HubState) (d : Int), Hub.isConnected st2 clientId = true →
        Hub.fireTimer st2 clientId (Hub.Timer.mk d Hub.TimerAction.sendComplete)
          = { st2 with sent := st2.sent ++ [(clientId, Hub.Msg.sequenceComplete)] }) := by
  have hmax : ∀ f ∈ frames, (max 0 f.time) = f.time :=
    fun f hf => max_eq_right (hNonneg f hf)
  have hlastmem : lastF ∈ frames := List.mem_of_mem_getLast? hLast
  have hpush : Hub.pushSequenceFrames st clientId frames
      = { Hub.clearClientSequenceTimers st clientId with
            sequenceTimers :=
              (clientId,
                frames.map (fun f =>
                  Hub.Timer.mk (max 0 f.time) (Hub.TimerAction.sendFrame f))
                ++ [Hub.Timer.mk (max 0 lastF.time) Hub.TimerAction.sendComplete])
              :: (Hub.clearClientSequenceTimers st clientId).sequenceTimers } := by
    simp only [Hub.pushSequenceFrames, hc, hLast]
  refine ⟨?_, ?_, ?_, ?_, ?_, ?_⟩
  · rw [hpush, timersFor_set_head]
    congr 1
    · exact List.map_congr_left (fun f hf => by rw [hmax f hf])
    · rw [hmax lastF hlastmem]
  · rw [hpush]
    rfl
  · intro cid2 hne
    rw [hpush, timersFor_set_head_ne _ _ _ _ hne]
    simp only [Hub.timersFor, Hub.clearClientSequenceTimers]
    rw [find?_filter_ne st.sequenceTimers cid2 clientId hne]
  · intro st2 t hcon
    simp [Hub.fireTimer, hcon]
  · intro st2 d f hcon
    simp [Hub.fireTimer, hcon]
  · intro st2 d hcon
    simp [Hub.fireTimer, hcon]

/-- C2 witness: the four-frame demo sequence scheduled for client 1. -/
theorem c2_sequence_scheduling_witness :
    Hub.timersFor (Hub.pushSequenceFrames oneClientHub 1 demoFrames) 1
      = demoFrames.map (fun f => Hub.Timer.mk f.time (Hub.TimerAction.sendFrame f))
        ++ [Hub.Timer.mk (dFrame 3 500).time Hub.TimerAction.sendComplete]
    ∧ (Hub.pushSequenceFrames oneClientHub 1 demoFrames).sent = oneClientHub.sent :=
  ⟨(c2_sequence_scheduling oneClientHub 1 demoFrames (dFrame 3 500) (clientOpen 1)
      rfl rfl (by decide) (by decide)).1,
   (c2_sequence_scheduling oneClientHub 1 demoFrames (dFrame 3 500) (clientOpen 1)
      rfl rfl (by decide) (by decide)).2.1⟩

/-- C4: a `stop_sequence_request` from a known client cancels all of its
pending timers (an open socket gets an immediate `sequence_stopped`, a closed
one nothing), never retracts already-sent messages (the old log is a prefix
of the new), and afterwards no timer firing can send anything further; in the
concrete run with frames at offsets [0,100,250,500] and a stop at t = 120,
exactly the frames at 0 and 100 were delivered and the frames at 250 and 500
are never sent. -/
theorem c4_stop_cancels_pending (st : Hub.HubState) (clientId : Nat) (c : Hub.ClientConn)
    (hc : st.findClient clientId = some c) :
    Hub.timersFor (Hub.handleStopSequenceRequest st clientId) clientId = []
    ∧ (c.readyState = 1 → (Hub.handleStopSequenceRequest st clientId).sent
        = st.sent ++ [(clientId, Hub.Msg.sequenceStopped)])
    ∧ (¬ c.readyState = 1 → (Hub.handleStopSequenceRequest st clientId).sent = st.sent)
    ∧ st.sent <+: (Hub.handleStopSequenceRequest st clientId).sent
    ∧ (∀ now : Int,
        (Hub.fireDueFor (Hub.handleStopSequenceRequest st clientId) clientId now).sent
          = (Hub.handleStopSequenceRequest st clientId).sent)
    ∧ c4stB.sent
        = [(1, Hub.Msg.sequenceFrame (dFrame 0 0)), (1, Hub.Msg.sequenceFrame (dFrame 1 100))]
    ∧ c4stC.sent = c4stB.sent ++ [(1, Hub.Msg.sequenceStopped)]
    ∧ Hub.timersFor c4stC 1 = []
    ∧ (∀ now : Int, (Hub.fireDueFor c4stC 1 now).sent = c4stC.sent) := by
  have hstop : Hub.handleStopSequenceRequest st clientId
      = (if c.readyState = 1 then
          { Hub.clearClientSequenceTimers st clientId with
              sent := st.sent ++ [(clientId, Hub.Msg.sequenceStopped)] }
        else Hub.clearClientSequenceTimers st clientId) := by
    simp only [Hub.handleStopSequenceRequest, hc]
    rfl
  have h1 : Hub.timersFor (Hub.handleStopSequenceRequest st clientId) clientId = [] := by
    rw [hstop]
    split
    · rw [timersFor_set_sent]
      exact timersFor_clear_self st clientId
    · exact timersFor_clear_self st clientId
  refine ⟨h1, ?_, ?_, ?_, fun now => fireDueFor_sent_of_no_timers _ _ now h1,
    by decide, by decide, by decide,
    fun now => fireDueFor_sent_of_no_timers c4stC 1 now (by decide)⟩
  · intro hr
    rw [hstop, if_pos hr]
  · intro hr
    rw [hstop, if_neg hr]
    rfl
  · rw [hstop]
    split
    · exact List.prefix_append st.sent _
    · exact List.prefix_rfl

/-- C4 witness: the stop request of the concrete scenario cancels the
pending 250/500 timers and acknowledges with `sequence_stopped`. -/
theorem c4_stop_cancels_pending_witness :
    Hub.timersFor (Hub.handleStopSequenceRequest c4stB 1) 1 = []
    ∧ (Hub.handleStopSequenceRequest c4stB 1).sent
        = c4stB.sent ++ [(1, Hub.Msg.sequenceStopped)] :=
  ⟨(c4_stop_cancels_pending c4stB 1 (clientOpen 1) (by decide)).1,
   (c4_stop_cancels_pending c4stB 1 (clientOpen 1) (by decide)).2.1 rfl⟩

/-- C8 counterexample: a successfully parsed test-sequence file whose single
frame carries a 1-element joint vector (the simulator declares 5 joints) is
not rejected at load time: the hub replies only `sequence_start` — no error
message — and schedules delivery of the malformed frame. -/
theorem c8_hub_accepts_malformed_frames :
    (Hub.handleTestSequenceRequest oneClientHub 1
        (Except.ok { meta := "m", frames := [c8BadFrame] })).sent
      = [(1, Hub.Msg.sequenceStart "m")]
    ∧ Hub.timersFor (Hub.handleTestSequenceRequest oneClientHub 1
        (Except.ok { meta := "m", frames := [c8BadFrame] })) 1
      = [Hub.Timer.mk 100 (Hub.TimerAction.sendFrame c8BadFrame),
         Hub.Timer.mk 100 Hub.TimerAction.sendComplete]
    ∧ c8BadFrame.joints.length ≠ Arm.jointNames.length := by
  refine ⟨by decide, by decide, by decide⟩

/-- C8 (amended): the hub's test-sequence loader rejects an unreadable or
unparseable file (`SEQUENCE_ERROR`) and an empty frame list
(`EMPTY_SEQUENCE`) with descriptive error replies, leaving the scheduled
timers untouched; joint-vector-length and time-type validation happens only
in the local sequence loader (`validateActionSequence`), which accepts a
sequence exactly when it is non-empty and every frame has a joint array of
the declared length and a numeric time, rejecting the malformed shapes with
descriptive per-frame errors. -/
theorem c8_sequence_load_validation (st : Hub.HubState) (clientId : Nat)
    (c : Hub.ClientConn) (e meta : String) (n : Nat) (frames : List Arm.RawFrame)
    (hc : st.findClient clientId = some c) (hOpen : c.readyState = 1)
    (hOk : Arm.validateActionSequence n frames = Except.ok ()) :
    ((Hub.handleTestSequenceRequest st clientId (Except.error e)).sequenceTimers
        = st.sequenceTimers
      ∧ (Hub.handleTestSequenceRequest st clientId (Except.error e)).sent
        = st.sent ++ [(clientId, Hub.Msg.error "SEQUENCE_ERROR" ("处理测试序列失败: " ++ e))])
    ∧ ((Hub.handleTestSequenceRequest st clientId
          (Except.ok { meta := meta, frames := [] })).sequenceTimers = st.sequenceTimers
      ∧ (Hub.handleTestSequenceRequest st clientId
          (Except.ok { meta := meta, frames := [] })).sent
        = st.sent ++ [(clientId, Hub.Msg.error "EMPTY_SEQUENCE" "测试序列为空")])
    ∧ (frames ≠ []
      ∧ ∀ f ∈ frames, (∃ js, f.joints = some js ∧ js.length = n)
          ∧ (∃ q, f.time = Arm.JsonValue.num q))
    ∧ Arm.validateActionSequence n []
        = Except.error "Action sequence must contain at least one frame"
    ∧ Arm.validateActionSequence 5
        [{ joints := some [Arm.JsonValue.num 0], time := Arm.JsonValue.num 100 }]
        = Except.error "Frame 0: joints array must have 5 values"
    ∧ Arm.validateActionSequence 5
        [{ joints := some [Arm.JsonValue.num 0, Arm.JsonValue.num 0, Arm.JsonValue.num 0,
            Arm.JsonValue.num 0, Arm.JsonValue.num 0], time := Arm.JsonValue.str "t" }]
        = Except.error "Frame 0: time must be a number" := by
  have hlen : frames.length ≠ 0 := by
    intro h0
    rw [Arm.validateActionSequence] at hOk
    simp [h0] at hOk
  have hv : Arm.validateFrames n 0 frames = none := by
    rcases hvv : Arm.validateFrames n 0 frames with _ | m
    · rfl
    · rw [Arm.validateActionSequence, if_neg hlen, hvv] at hOk
      cases hOk
  have hid : c.id = clientId := by simpa using List.find?_some hc
  refine ⟨⟨?_, ?_⟩, ⟨?_, ?_⟩, ⟨?_, validateFrames_none_good n 0 frames hv⟩, rfl, rfl, rfl⟩
  · simp [Hub.handleTestSequenceRequest, hc, Hub.sendError, hOpen, hid]
  · simp [Hub.handleTestSequenceRequest, hc, Hub.sendError, hOpen, hid]
  · simp [Hub.handleTestSequenceRequest, hc, Hub.sendError, hOpen, hid]
  · simp [Hub.handleTestSequenceRequest, hc, Hub.sendError, hOpen, hid]
  · exact fun hnil => hlen (by rw [hnil]; rfl)

/-- C8 amended-claim witness: concrete hub rejections and a concrete
validated sequence. -/
theorem c8_sequence_load_validation_witness :
    ((Hub.handleTestSequenceRequest oneClientHub 1 (Except.error "boom")).sequenceTimers
        = oneClientHub.sequenceTimers
      ∧ (Hub.handleTestSequenceRequest oneClientHub 1 (Except.error "boom")).sent
        = oneClientHub.sent
            ++ [(1, Hub.Msg.error "SEQUENCE_ERROR" ("处理测试序列失败: " ++ "boom"))])
    ∧ ((Hub.handleTestSequenceRequest oneClientHub 1
          (Except.ok { meta := "m", frames := [] })).sequenceTimers
        = oneClientHub.sequenceTimers
      ∧ (Hub.handleTestSequenceRequest oneClientHub 1
          (Except.ok { meta := "m", frames := [] })).sent
        = oneClientHub.sent ++ [(1, Hub.Msg.error "EMPTY_SEQUENCE" "测试序列为空")])
    ∧ ([c8GoodRaw] ≠ ([] : List Arm.RawFrame)
      ∧ ∀ f ∈ [c8GoodRaw], (∃ js, f.joints = some js ∧ js.length = 5)
          ∧ (∃ q, f.time = Arm.JsonValue.num q))
    ∧ Arm.validateActionSequence 5 []
        = Except.error "Action sequence must contain at least one frame"
    ∧ Arm.validateActionSequence 5
        [{ joints := some [Arm.JsonValue.num 0], time := Arm.JsonValue.num 100 }]
        = Except.error "Frame 0: joints array must have 5 values"
    ∧ Arm.validateActionSequence 5
        [{ joints := some [Arm.JsonValue.num 0, Arm.JsonValue.num 0, Arm.JsonValue.num 0,
            Arm.JsonValue.num 0, Arm.JsonValue.num 0], time := Arm.JsonValue.str "t" }]
        = Except.error "Frame 0: time must be a number" :=
  c8_sequence_load_validation oneClientHub 1 (clientOpen 1) "boom" "m" 5 [c8GoodRaw]
    rfl rfl rfl

/-- C5: in the run where the initial connection and every automatic
reconnection attempt fail by an immediate unexpected close and the user never
intervenes, exactly 3 automatic attempts are started, the terminal
`reconnect_failed` event is emitted exactly once, the final state is inert
under every further automatic event (no 4th attempt is ever made), and a
manual `reconnect()` resets the attempt count to zero before opening the new
connection. -/
theorem c5_reconnect_attempt_cap (es : List WSC.Event)
    (hAuto : ∀ e ∈ es, WSC.Event.isAuto e = true) :
    WSC.countReconnectFailed WSC.failureRun.emitted = 1
    ∧ WSC.failureRun.reconnectAttempts = 3
    ∧ WSC.failureRun.autoAttemptsStarted = 3
    ∧ WSC.failureRun.pendingTimers = 0
    ∧ List.foldl WSC.step WSC.failureRun es = WSC.failureRun
    ∧ (WSC.step WSC.failureRun WSC.Event.manualReconnect).reconnectAttempts = 0
    ∧ (WSC.step WSC.failureRun WSC.Event.manualReconnect).hasSocket = true := by
  have hfix : ∀ e : WSC.Event, WSC.Event.isAuto e = true →
      WSC.step WSC.failureRun e = WSC.failureRun := by
    intro e he
    cases e
    case closeEvt => decide
    case openEvt => decide
    case timerFire => decide
    all_goals simp [WSC.Event.isAuto] at he
  have hfold : ∀ l : List WSC.Event, (∀ e ∈ l, WSC.Event.isAuto e = true) →
      List.foldl WSC.step WSC.failureRun l = WSC.failureRun := by
    intro l
    induction l with
    | nil => intro _; rfl
    | cons a t ih =>
      intro h
      rw [List.foldl_cons, hfix a (h a (List.mem_cons_self a t))]
      exact ih (fun e he => h e (List.mem_cons_of_mem a he))
  exact ⟨by decide, by decide, by decide, by decide, hfold es hAuto, by decide, by decide⟩

/-- C5 witness: the exhausted client stays inert under a further close and
timer event. -/
theorem c5_reconnect_attempt_cap_witness :
    WSC.countReconnectFailed WSC.failureRun.emitted = 1
    ∧ WSC.failureRun.reconnectAttempts = 3
    ∧ WSC.failureRun.autoAttemptsStarted = 3
    ∧ WSC.failureRun.pendingTimers = 0
    ∧ List.foldl WSC.step WSC.failureRun [WSC.Event.closeEvt, WSC.Event.timerFire]
        = WSC.failureRun
    ∧ (WSC.step WSC.failureRun WSC.Event.manualReconnect).reconnectAttempts = 0
    ∧ (WSC.step WSC.failureRun WSC.Event.manualReconnect).hasSocket = true :=
  c5_reconnect_attempt_cap [WSC.Event.closeEvt, WSC.Event.timerFire] (by decide)

/-- C6 counterexample: after connect, open, an unexpected close (which
schedules reconnect attempt 1) and a manual `connect()` during the reconnect
delay, a reconnection attempt is in flight (`isReconnecting`, one pending
timer) — yet a re-entrant close event spawns a second concurrent attempt:
two reconnect timers end up pending, because the close handler clears
`isReconnecting` before calling `attemptReconnect`. -/
theorem c6_reentrant_close_spawns_second_attempt :
    c6Pre.isReconnecting = true ∧ c6Pre.pendingTimers = 1
    ∧ (WSC.step c6Pre WSC.Event.closeEvt).pendingTimers = 2
    ∧ (WSC.step c6Pre WSC.Event.closeEvt).autoAttemptsStarted = 2 := by
  decide

/-- C6 (amended): a direct `attemptReconnect` call while the reconnecting
flag is set is a no-op, and a single close event spawns at most one new
reconnection attempt; but since the close handler clears the flag before
reconnecting, a close event arriving while an attempt is in flight does spawn
a second concurrent attempt. -/
theorem c6_reconnect_guard (s s2 : WSC.ClientState) (h : s.isReconnecting = true) :
    WSC.attemptReconnect s = s
    ∧ (WSC.step s2 WSC.Event.closeEvt).pendingTimers ≤ s2.pendingTimers + 1 := by
  constructor
  · simp [WSC.attemptReconnect, h]
  · simp only [WSC.step]
    split
    · split
      · simp only [WSC.attemptReconnect]
        split
        · exact Nat.le_succ _
        · exact Nat.le_refl _
      · split
        · exact Nat.le_succ _
        · exact Nat.le_succ _
    · exact Nat.le_succ _

/-- C6 amended-claim witness at the concrete scenario state. -/
theorem c6_reconnect_guard_witness :
    WSC.attemptReconnect c6Pre = c6Pre
    ∧ (WSC.step c6Pre WSC.Event.closeEvt).pendingTimers ≤ c6Pre.pendingTimers + 1 :=
  c6_reconnect_guard c6Pre c6Pre (by decide)

/-- C7: at most one frame transition is in flight — a loop iteration with the
processing flag up changes nothing; and in the burst scenario (five frames
enqueued right after `startSequence`, before any transition completes), after
any positive number of loop iterations exactly one transition is active (the
first frame, at the first-frame default duration) and 4 frames remain
buffered. -/
theorem c7_single_transition_in_flight (s : JAQ.QueueState) (k : Nat)
    (hp : s.isProcessing = true) (hk : 1 ≤ k) :
    JAQ.tick s = s
    ∧ (tickN k burstQueue).isProcessing = true
    ∧ (tickN k burstQueue).frameQueue.length = 4
    ∧ (tickN k burstQueue).activeTransition = some ⟨jFrame 1 100, 1⟩ := by
  have h1 : JAQ.tick s = s := tick_of_processing s hp
  obtain ⟨j, rfl⟩ : ∃ j, k = j + 1 := ⟨k - 1, (Nat.succ_pred_eq_of_pos hk).symm⟩
  have h3 : JAQ.tick burstAfter = burstAfter := tick_of_processing burstAfter (by decide)
  have h2 : tickN (j + 1) burstQueue = burstAfter := by
    show tickN j (JAQ.tick burstQueue) = burstAfter
    rw [show JAQ.tick burstQueue = burstAfter from rfl]
    exact tickN_fixed j burstAfter h3
  refine ⟨h1, ?_, ?_, ?_⟩ <;> rw [h2] <;> decide

/-- C7 witness: one loop iteration after the burst leaves one active
transition and four buffered frames. -/
theorem c7_single_transition_in_flight_witness :
    JAQ.tick burstAfter = burstAfter
    ∧ (tickN 1 burstQueue).isProcessing = true
    ∧ (tickN 1 burstQueue).frameQueue.length = 4
    ∧ (tickN 1 burstQueue).activeTransition = some ⟨jFrame 1 100, 1⟩ :=
  c7_single_transition_in_flight burstAfter 1 (by decide) (by decide)

/-- C1 counterexample: in a hub with connected clients 1 and 2, a
`robot_state` from client 1 is delivered as `robot_state_update` to client 1
itself as well as to client 2 — `handleRobotState` broadcasts with no
exclusion, so the message IS re-delivered back to the sender, contradicting
the claim. -/
theorem c1_state_echoed_back_to_sender :
    (1, Hub.Msg.robotStateUpdate 1 "state") ∈ (Hub.handleRobotState twoClientHub 1 "state").sent
    ∧ (2, Hub.Msg.robotStateUpdate 1 "state") ∈ (Hub.handleRobotState twoClientHub 1 "state").sent := by
  decide

/-- C1 (amended): a `robot_state` from client A is delivered as
`robot_state_update` carrying `sourceClientId = A` to every connected client
whose socket is open — including A itself (the hub does not exclude the
sender). -/
theorem c1_robot_state_broadcast_includes_sender (st : Hub.HubState) (clientId : Nat)
    (data : String) (A : Hub.ClientConn) (hA : A ∈ st.clients) (hOpen : A.readyState = 1) :
    (Hub.handleRobotState st clientId data).sent
      = st.sent ++ st.clients.filterMap (fun c =>
          if c.readyState = 1 then some (c.id, Hub.Msg.robotStateUpdate clientId data) else none)
    ∧ (A.id, Hub.Msg.robotStateUpdate clientId data)
        ∈ (Hub.handleRobotState st clientId data).sent := by
  have h1 : (Hub.handleRobotState st clientId data).sent
      = st.sent ++ st.clients.filterMap (fun c =>
          if c.readyState = 1 then some (c.id, Hub.Msg.robotStateUpdate clientId data) else none) := by
    simp [Hub.handleRobotState, Hub.broadcast]
  refine ⟨h1, ?_⟩
  rw [h1]
  refine List.mem_append_right _ (List.mem_filterMap.mpr ⟨A, hA, ?_⟩)
  simp [hOpen]

/-- C1 amended-claim witness at a concrete hub. -/
theorem c1_robot_state_broadcast_includes_sender_witness :
    (Hub.handleRobotState twoClientHub 1 "state").sent
      = twoClientHub.sent ++ twoClientHub.clients.filterMap (fun c =>
          if c.readyState = 1 then some (c.id, Hub.Msg.robotStateUpdate 1 "state") else none)
    ∧ ((clientOpen 2).id, Hub.Msg.robotStateUpdate 1 "state")
        ∈ (Hub.handleRobotState twoClientHub 1 "state").sent :=
  c1_robot_state_broadcast_includes_sender twoClientHub 1 "state" (clientOpen 2) (by decide) rfl

/-- C3: the transition duration attached to an executed frame is computed by
`calculateFrameDuration`: 1.0 s when no frame has been processed yet
(whatever the frame's `time`), otherwise `(next.time − current.time)/1000` s
when a next frame is buffered and `(current.time − lastProcessed.time)/1000` s
when not, each floored at 0.1 s; concretely, current `time = 100` with next
`time = 350` gives 0.25 s, and a 50 ms gap from the prior processed frame
gives 0.1 s. -/
theorem c3_frame_duration (s : JAQ.QueueState) (f : JAQ.FrameData)
    (nf : Option JAQ.FrameData) (hArm : s.hasRobotArm = true) :
    (JAQ.executeFrame s f nf).activeTransition
        = some ⟨f, JAQ.calculateFrameDuration s.lastProcessedFrame f nf⟩
    ∧ (s.lastProcessedFrame = none → JAQ.calculateFrameDuration s.lastProcessedFrame f nf = 1)
    ∧ (∀ lastF n2, JAQ.calculateFrameDuration (some lastF) f (some n2)
          = max (1/10) (((n2.time - f.time : Int) : ℚ) / 1000))
    ∧ (∀ lastF, JAQ.calculateFrameDuration (some lastF) f none
          = max (1/10) (((f.time - lastF.time : Int) : ℚ) / 1000))
    ∧ JAQ.calculateFrameDuration (some (jFrame 0 0)) (jFrame 1 100) (some (jFrame 2 350)) = 1/4
    ∧ JAQ.calculateFrameDuration (some (jFrame 0 950)) (jFrame 1 1000) none = 1/10
    ∧ (∀ t : Int, JAQ.calculateFrameDuration none (jFrame 6 t) nf = 1) := by
  refine ⟨?_, ?_, ?_, ?_, ?_, ?_, fun t => rfl⟩
  · cases hg : JAQ.gripperCommand f <;> simp [JAQ.executeFrame, hArm, hg]
  · intro h
    simp [JAQ.calculateFrameDuration, h]
  · intro lastF n2
    rfl
  · intro lastF
    rfl
  · show max (1/10 : ℚ) (((350 - 100 : Int) : ℚ) / 1000) = 1/4
    have h : ((350 - 100 : Int) : ℚ) / 1000 = 1/4 := by norm_num
    rw [h]
    exact max_eq_right (by norm_num)
  · show max (1/10 : ℚ) (((1000 - 950 : Int) : ℚ) / 1000) = 1/10
    have h : ((1000 - 950 : Int) : ℚ) / 1000 = 1/20 := by norm_num
    rw [h]
    exact max_eq_left (by norm_num)

/-- C3 witness: at the fresh queue, executing frame `time = 100` with next
frame `time = 350` starts a transition whose duration is the
first-frame default 1.0 s. -/
theorem c3_frame_duration_witness :
    (JAQ.executeFrame idleQueue (jFrame 1 100) (some (jFrame 2 350))).activeTransition
      = some ⟨jFrame 1 100,
          JAQ.calculateFrameDuration idleQueue.lastProcessedFrame (jFrame 1 100)
            (some (jFrame 2 350))⟩
    ∧ JAQ.calculateFrameDuration idleQueue.lastProcessedFrame (jFrame 1 100)
        (some (jFrame 2 350)) = 1 :=
  ⟨(c3_frame_duration idleQueue (jFrame 1 100) (some (jFrame 2 350)) rfl).1,
   (c3_frame_duration idleQueue (jFrame 1 100) (some (jFrame 2 350)) rfl).2.1 rfl⟩

/-- C9: `stop()` is idempotent and a no-op from `idle`: on an `idle` session
it changes nothing, and applying `stop` to any already-stopped session (i.e.
any state produced by `stop`) changes nothing further — the buffer stays
empty and no transition is in flight. -/
theorem c9_stop_idempotent (s : JAQ.QueueState) (hIdle : s.status = JAQ.PlayStatus.idle) :
    JAQ.stop s = s ∧ ∀ s2 : JAQ.QueueState, JAQ.stop (JAQ.stop s2) = JAQ.stop s2 := by
  constructor
  · simp [JAQ.stop, hIdle]
  · intro s2
    rcases s2 with ⟨arm, q, st, p, loop, lastf, tr, grip⟩
    cases st <;> cases arm <;> rfl

/-- C9 witness: `stop` is a no-op on the concrete idle queue, and idempotent
on the concrete burst state. -/
theorem c9_stop_idempotent_witness :
    JAQ.stop idleQueue = idleQueue
    ∧ JAQ.stop (JAQ.stop burstAfter) = JAQ.stop burstAfter :=
  ⟨(c9_stop_idempotent idleQueue rfl).1,
   (c9_stop_idempotent idleQueue rfl).2 burstAfter⟩

/-- C10: when the executed frame carries `io.digital_output_0`, the gripper
transition started alongside the joint transition targets openness 0 for a
`true` flag and 1 for a `false` flag; when the field is absent no gripper
animation is started (the gripper timeline is left exactly as it was). -/
theorem c10_gripper_openness (s : JAQ.QueueState) (f : JAQ.FrameData)
    (nf : Option JAQ.FrameData) (hArm : s.hasRobotArm = true) :
    (f.io.bind (fun io => io.digital_output_0) = some true →
        (JAQ.executeFrame s f nf).activeGripper = some 0)
    ∧ (f.io.bind (fun io => io.digital_output_0) = some false →
        (JAQ.executeFrame s f nf).activeGripper = some 1)
    ∧ (f.io.bind (fun io => io.digital_output_0) = none →
        (JAQ.executeFrame s f nf).activeGripper = s.activeGripper) := by
  rcases f with ⟨i, t, js, cart, io⟩
  rcases io with _ | ⟨_ | b⟩
  · simp [JAQ.executeFrame, JAQ.gripperCommand, hArm]
  · simp [JAQ.executeFrame, JAQ.gripperCommand, hArm]
  · cases b <;> simp [JAQ.executeFrame, JAQ.gripperCommand, hArm]

/-- C10 witness: a frame with the flag `true` commands gripper openness 0 on
the concrete queue. -/
theorem c10_gripper_openness_witness :
    (JAQ.executeFrame idleQueue
        { id := 9, time := 0, joints := [0, 0, 0, 0, 0], cartesian := none,
          io := some ⟨some true⟩ } none).activeGripper = some 0 :=
  (c10_gripper_openness idleQueue
      { id := 9, time := 0, joints := [0, 0, 0, 0, 0], cartesian := none,
        io := some ⟨some true⟩ } none rfl).1 rfl
